import Mathlib

/-! PlayStation 2 DMA controller (DMAC) register and tag definitions.

A shallow embedding of `arch/mips/include/asm/mach-ps2/dmac.h`: the
`struct dma_tag` bit-field record, `enum dma_tag_reg`, the per-channel
register map, the `DMAC_CHCR_*` channel-control constants and the
`DMAC_STAT_*` status/mask constants, with the properties that hold of them.

Machine words are natural numbers; a 128-bit tag is a `Nat` whose low
64 bits are the first `u64` storage unit and whose next 64 bits the second.
-/

namespace PS2.DMAC

/-! ## `struct dma_tag` -/

/-- The named members of `struct dma_tag`. -/
inductive DmaTagField where
  | qwc | pce | id | irq | addr | spr
  deriving DecidableEq, Repr

/-- One bit-field declarator `u64 name : width;` (`name = none` for an
unnamed padding bit-field `u64 : width;`). -/
structure BitField where
  name : Option DmaTagField
  width : Nat
  deriving DecidableEq, Repr

/-- The declarators of `struct dma_tag`, in declaration order. -/
def dma_tag_decl : List BitField :=
  [ ⟨some .qwc, 16⟩,
    ⟨none, 10⟩,
    ⟨some .pce, 2⟩,
    ⟨some .id, 3⟩,
    ⟨some .irq, 1⟩,
    ⟨some .addr, 31⟩,
    ⟨some .spr, 1⟩,
    ⟨none, 64⟩ ]

/-- A bit-field placed in storage: it occupies bits `lo .. lo + width - 1`. -/
structure Slot where
  name : Option DmaTagField
  lo : Nat
  width : Nat
  deriving DecidableEq, Repr

/-- Allocation of consecutive bit-fields starting at bit `off`, each field
directly above the previous one (least-significant bit first). -/
def allocate : Nat → List BitField → List Slot
  | _, [] => []
  | off, f :: fs => ⟨f.name, off, f.width⟩ :: allocate (off + f.width) fs

/-- The layout of `struct dma_tag`. -/
def dma_tag_layout : List Slot := allocate 0 dma_tag_decl

/-- Total number of bits declared by a list of bit-fields. -/
def totalWidth (fs : List BitField) : Nat := (fs.map BitField.width).sum

/-- The slot `(lo, width)` of a named member in a layout. -/
def slotOf (f : DmaTagField) : List Slot → Option (Nat × Nat)
  | [] => none
  | s :: ss => if s.name = some f then some (s.lo, s.width) else slotOf f ss

/-- Width in bits of a named member in a layout (0 when absent). -/
def fieldWidth (f : DmaTagField) (l : List Slot) : Nat :=
  match slotOf f l with
  | some (_, width) => width
  | none => 0

/-- Read of a bit-field: the `width` bits of `w` starting at bit `lo`. -/
def extract (w lo width : Nat) : Nat := (w / 2 ^ lo) % 2 ^ width

/-- Assignment to a bit-field of the storage `w`: the old contents of bits
`lo .. lo + width - 1` are removed and the value, truncated to `width` bits,
is put in their place; every other bit of `w` is kept. -/
def deposit (w v lo width : Nat) : Nat :=
  w - extract w lo width * 2 ^ lo + (v % 2 ^ width) * 2 ^ lo

/-- Read member `f` of the tag held in the 128-bit word `w` (`t.f`). -/
def dma_tag_get (f : DmaTagField) (w : Nat) : Nat :=
  match slotOf f dma_tag_layout with
  | some (lo, width) => extract w lo width
  | none => 0

/-- Assign `v` to member `f` of the tag held in the 128-bit word `w`
(`t.f = v`). -/
def dma_tag_set (f : DmaTagField) (v w : Nat) : Nat :=
  match slotOf f dma_tag_layout with
  | some (lo, width) => deposit w v lo width
  | none => w

/-- The member values of a `struct dma_tag`. -/
structure dma_tag where
  qwc : Nat
  pce : Nat
  id : Nat
  irq : Nat
  addr : Nat
  spr : Nat
  deriving DecidableEq, Repr

/-- Decode a 128-bit descriptor word: read every named member. -/
def dma_tag.decode (w : Nat) : dma_tag :=
  { qwc := dma_tag_get .qwc w
    pce := dma_tag_get .pce w
    id := dma_tag_get .id w
    irq := dma_tag_get .irq w
    addr := dma_tag_get .addr w
    spr := dma_tag_get .spr w }

/-- Assign every named member, in declaration order, to the tag held in the
128-bit word `w`. -/
def dma_tag.store (t : dma_tag) (w : Nat) : Nat :=
  dma_tag_set .spr t.spr (dma_tag_set .addr t.addr (dma_tag_set .irq t.irq
    (dma_tag_set .id t.id (dma_tag_set .pce t.pce (dma_tag_set .qwc t.qwc w)))))

/-- Encode a tag: assign every named member to a zeroed 128-bit word. -/
def dma_tag.encode (t : dma_tag) : Nat := t.store 0

/-- First 64-bit storage unit of a 128-bit word. -/
def word0 (w : Nat) : Nat := w % 2 ^ 64

/-- Second 64-bit storage unit of a 128-bit word. -/
def word1 (w : Nat) : Nat := (w / 2 ^ 64) % 2 ^ 64

/-- The unnamed padding bits 16-25 of the first word, in place. -/
def dma_tag_pad (w : Nat) : Nat := extract w 16 10 * 2 ^ 16

/-! ## `enum dma_tag_reg` -/

/-- The enumerators of `enum dma_tag_reg`. In the terms of the design
document: `refe` is ReferenceEnd, `cnts` ContinueStall, `cnt` Continue,
`next` Next, `ref` Reference, `refs` ReferenceStall, `call` Call, `ret`
Return and `end` End. -/
inductive dma_tag_reg where
  | dma_tag_id_refe
  | dma_tag_id_cnts
  | dma_tag_id_cnt
  | dma_tag_id_next
  | dma_tag_id_ref
  | dma_tag_id_refs
  | dma_tag_id_call
  | dma_tag_id_ret
  | dma_tag_id_end
  deriving DecidableEq, Repr, Fintype

/-- The enumerator list of `enum dma_tag_reg` with the explicit initialisers
(`= 0` on the first two, none on the others). -/
def dma_tag_reg_decl : List (dma_tag_reg × Option Nat) :=
  [ (.dma_tag_id_refe, some 0),
    (.dma_tag_id_cnts, some 0),
    (.dma_tag_id_cnt, none),
    (.dma_tag_id_next, none),
    (.dma_tag_id_ref, none),
    (.dma_tag_id_refs, none),
    (.dma_tag_id_call, none),
    (.dma_tag_id_ret, none),
    (.dma_tag_id_end, none) ]

/-- Values of C enumerators: an explicit initialiser gives the value, an
enumerator without one gets the previous value plus one (0 for the first). -/
def enumValues {α : Type} : Nat → List (α × Option Nat) → List (α × Nat)
  | _, [] => []
  | _, (e, some v) :: rest => (e, v) :: enumValues (v + 1) rest
  | next, (e, none) :: rest => (e, next) :: enumValues (next + 1) rest

/-- The integer value of an enumerator of `enum dma_tag_reg`. -/
def dma_tag_reg.val (k : dma_tag_reg) : Nat :=
  match (enumValues 0 dma_tag_reg_decl).lookup k with
  | some v => v
  | none => 0

/-- Column "Data start address" of the table in `enum dma_tag_reg`. -/
inductive DataStart where
  | ADDR
  | next_to_tag
  deriving DecidableEq, Repr

/-- Column "Next tag address" of the table in `enum dma_tag_reg`. -/
inductive NextTag where
  | none
  | next_to_transfer_data
  | ADDR
  | next_to_tag
  | Dn_ASR
  deriving DecidableEq, Repr

/-- The table written next to the enumerators of `enum dma_tag_reg`: for each
tag identifier the data start address and the next tag address. -/
def dma_tag_reg.route : dma_tag_reg → DataStart × NextTag
  | .dma_tag_id_refe => (.ADDR, .none)
  | .dma_tag_id_cnts => (.ADDR, .none)
  | .dma_tag_id_cnt => (.next_to_tag, .next_to_transfer_data)
  | .dma_tag_id_next => (.next_to_tag, .ADDR)
  | .dma_tag_id_ref => (.ADDR, .next_to_tag)
  | .dma_tag_id_refs => (.ADDR, .next_to_tag)
  | .dma_tag_id_call => (.next_to_tag, .ADDR)
  | .dma_tag_id_ret => (.next_to_tag, .Dn_ASR)
  | .dma_tag_id_end => (.next_to_tag, .none)

/-! ## Channels and the register map -/

/-- The ten DMA channels. -/
inductive Channel where
  | VIF0 | VIF1 | GIF | FIPU | TIPU | SIF0 | SIF1 | SIF2 | FSPR | TSPR
  deriving DecidableEq, Repr, Fintype

/-- The channel number ("Channel 0: ... (VIF0)", ..., "Channel 9: To
scratch-pad RAM (SPR)"). -/
def Channel.num : Channel → Nat
  | .VIF0 => 0 | .VIF1 => 1 | .GIF => 2 | .FIPU => 3 | .TIPU => 4
  | .SIF0 => 5 | .SIF1 => 6 | .SIF2 => 7 | .FSPR => 8 | .TSPR => 9

/-- The channels in the order of the register map. -/
def channels : List Channel :=
  [.VIF0, .VIF1, .GIF, .FIPU, .TIPU, .SIF0, .SIF1, .SIF2, .FSPR, .TSPR]

/-- The kinds of per-channel register. -/
inductive ChanReg where
  | CHCR | MADR | QWC | TADR | ASR0 | ASR1 | SADR
  deriving DecidableEq, Repr, Fintype

/-- The per-channel register map: `regAddr c r` is the address that
`DMAC_<c>_<r>` is defined as, `none` when there is no such definition. -/
def regAddr : Channel → ChanReg → Option Nat
  | .VIF0, .CHCR => some 0x10008000
  | .VIF0, .MADR => some 0x10008010
  | .VIF0, .QWC => some 0x10008020
  | .VIF0, .TADR => some 0x10008030
  | .VIF0, .ASR0 => some 0x10008040
  | .VIF0, .ASR1 => some 0x10008050
  | .VIF1, .CHCR => some 0x10009000
  | .VIF1, .MADR => some 0x10009010
  | .VIF1, .QWC => some 0x10009020
  | .VIF1, .TADR => some 0x10009030
  | .VIF1, .ASR0 => some 0x10009040
  | .VIF1, .ASR1 => some 0x10009050
  | .GIF, .CHCR => some 0x1000a000
  | .GIF, .MADR => some 0x1000a010
  | .GIF, .QWC => some 0x1000a020
  | .GIF, .TADR => some 0x1000a030
  | .GIF, .ASR0 => some 0x1000a040
  | .GIF, .ASR1 => some 0x1000a050
  | .FIPU, .CHCR => some 0x1000b000
  | .FIPU, .MADR => some 0x1000b010
  | .FIPU, .QWC => some 0x1000b020
  | .TIPU, .CHCR => some 0x1000b400
  | .TIPU, .MADR => some 0x1000b410
  | .TIPU, .QWC => some 0x1000b420
  | .TIPU, .TADR => some 0x1000b430
  | .SIF0, .CHCR => some 0x1000c000
  | .SIF0, .MADR => some 0x1000c010
  | .SIF0, .QWC => some 0x1000c020
  | .SIF1, .CHCR => some 0x1000c400
  | .SIF1, .MADR => some 0x1000c410
  | .SIF1, .QWC => some 0x1000c420
  | .SIF1, .TADR => some 0x1000c430
  | .SIF2, .CHCR => some 0x1000c800
  | .SIF2, .MADR => some 0x1000c810
  | .SIF2, .QWC => some 0x1000c820
  | .FSPR, .CHCR => some 0x1000d000
  | .FSPR, .MADR => some 0x1000d010
  | .FSPR, .QWC => some 0x1000d020
  | .FSPR, .SADR => some 0x1000d080
  | .TSPR, .CHCR => some 0x1000d400
  | .TSPR, .MADR => some 0x1000d410
  | .TSPR, .QWC => some 0x1000d420
  | .TSPR, .TADR => some 0x1000d430
  | .TSPR, .SADR => some 0x1000d480
  | _, _ => none

/-! ## Channel control register (CHCR) -/

def DMAC_CHCR_DIR_TOMEM : Nat := 0 <<< 0
def DMAC_CHCR_DIR_FROMMEM : Nat := 1 <<< 0
def DMAC_CHCR_MOD_NORMAL : Nat := 0 <<< 2
def DMAC_CHCR_MOD_CHAIN : Nat := 1 <<< 2
def DMAC_CHCR_MOD_ILEAVE : Nat := 2 <<< 2
def DMAC_CHCR_ASP_NONE : Nat := 0 <<< 4
def DMAC_CHCR_ASP_1ADDR : Nat := 1 <<< 4
def DMAC_CHCR_ASP_2ADDR : Nat := 2 <<< 4
def DMAC_CHCR_TTE_OFF : Nat := 0 <<< 6
def DMAC_CHCR_TTE_ON : Nat := 1 <<< 6
def DMAC_CHCR_TIE_OFF : Nat := 0 <<< 7
def DMAC_CHCR_TIE_ON : Nat := 1 <<< 7
def DMAC_CHCR_STR_STOP : Nat := 0 <<< 8
def DMAC_CHCR_STR_START : Nat := 1 <<< 8

def DMAC_CHCR_STOP : Nat := DMAC_CHCR_STR_STOP
def DMAC_CHCR_BUSY : Nat := DMAC_CHCR_STR_START

def DMAC_CHCR_SENDN : Nat :=
  DMAC_CHCR_DIR_FROMMEM |||
  DMAC_CHCR_MOD_NORMAL |||
  DMAC_CHCR_ASP_NONE |||
  DMAC_CHCR_TTE_OFF |||
  DMAC_CHCR_TIE_OFF |||
  DMAC_CHCR_STR_START

def DMAC_CHCR_SENDN_TIE : Nat :=
  DMAC_CHCR_DIR_FROMMEM |||
  DMAC_CHCR_MOD_NORMAL |||
  DMAC_CHCR_ASP_NONE |||
  DMAC_CHCR_TTE_OFF |||
  DMAC_CHCR_TIE_ON |||
  DMAC_CHCR_STR_START

def DMAC_CHCR_SENDC : Nat :=
  DMAC_CHCR_DIR_FROMMEM |||
  DMAC_CHCR_MOD_CHAIN |||
  DMAC_CHCR_ASP_NONE |||
  DMAC_CHCR_TTE_OFF |||
  DMAC_CHCR_TIE_OFF |||
  DMAC_CHCR_STR_START

def DMAC_CHCR_SENDC_TTE : Nat :=
  DMAC_CHCR_DIR_FROMMEM |||
  DMAC_CHCR_MOD_CHAIN |||
  DMAC_CHCR_ASP_NONE |||
  DMAC_CHCR_TTE_ON |||
  DMAC_CHCR_TIE_OFF |||
  DMAC_CHCR_STR_START

def DMAC_CHCR_RECVN : Nat :=
  DMAC_CHCR_DIR_TOMEM |||
  DMAC_CHCR_MOD_NORMAL |||
  DMAC_CHCR_ASP_NONE |||
  DMAC_CHCR_TTE_OFF |||
  DMAC_CHCR_TIE_OFF |||
  DMAC_CHCR_STR_START

def DMAC_CHCR_RECVC_TIE : Nat :=
  DMAC_CHCR_DIR_TOMEM |||
  DMAC_CHCR_MOD_CHAIN |||
  DMAC_CHCR_ASP_NONE |||
  DMAC_CHCR_TTE_OFF |||
  DMAC_CHCR_TIE_ON |||
  DMAC_CHCR_STR_START

/-- The `DMAC_CHCR_DIR_*` values. -/
def chcr_dir : List Nat := [DMAC_CHCR_DIR_TOMEM, DMAC_CHCR_DIR_FROMMEM]

/-- The `DMAC_CHCR_MOD_*` values. -/
def chcr_mod : List Nat := [DMAC_CHCR_MOD_NORMAL, DMAC_CHCR_MOD_CHAIN, DMAC_CHCR_MOD_ILEAVE]

/-- The `DMAC_CHCR_ASP_*` values. -/
def chcr_asp : List Nat := [DMAC_CHCR_ASP_NONE, DMAC_CHCR_ASP_1ADDR, DMAC_CHCR_ASP_2ADDR]

/-- The `DMAC_CHCR_TTE_*` values. -/
def chcr_tte : List Nat := [DMAC_CHCR_TTE_OFF, DMAC_CHCR_TTE_ON]

/-- The `DMAC_CHCR_TIE_*` values. -/
def chcr_tie : List Nat := [DMAC_CHCR_TIE_OFF, DMAC_CHCR_TIE_ON]

/-- The `DMAC_CHCR_STR_*` values. -/
def chcr_str : List Nat := [DMAC_CHCR_STR_STOP, DMAC_CHCR_STR_START]

/-- The word with exactly bits `lo .. hi` set. -/
def bitRange (lo hi : Nat) : Nat := (2 ^ (hi + 1 - lo) - 1) <<< lo

/-- The six fields of a CHCR value, each masked out in place: direction
(bit 0), mode (bits 2-3), address stack pointer (bits 4-5), tag transfer
enable (bit 6), tag interrupt enable (bit 7) and start (bit 8). -/
def chcr_fields (v : Nat) : Nat × Nat × Nat × Nat × Nat × Nat :=
  (v &&& bitRange 0 0, v &&& bitRange 2 3, v &&& bitRange 4 5,
   v &&& bitRange 6 6, v &&& bitRange 7 7, v &&& bitRange 8 8)

/-- The bit ranges of the six CHCR fields. -/
def chcr_ranges : List Nat :=
  [bitRange 0 0, bitRange 2 3, bitRange 4 5, bitRange 6 6, bitRange 7 7, bitRange 8 8]

/-! ## Status register (STAT) -/

def DMAC_STAT : Nat := 0x1000e010
def DMAC_STAT_MASK : Nat := 0x1000e010

def DMAC_STAT_VIF0S : Nat := 1 <<< 0
def DMAC_STAT_VIF1S : Nat := 1 <<< 1
def DMAC_STAT_GIFS : Nat := 1 <<< 2
def DMAC_STAT_FIPUS : Nat := 1 <<< 3
def DMAC_STAT_TIPUS : Nat := 1 <<< 4
def DMAC_STAT_SIF0S : Nat := 1 <<< 5
def DMAC_STAT_SIF1S : Nat := 1 <<< 6
def DMAC_STAT_SIF2S : Nat := 1 <<< 7
def DMAC_STAT_FSPRS : Nat := 1 <<< 8
def DMAC_STAT_TSPRS : Nat := 1 <<< 9
def DMAC_STAT_SIS : Nat := 1 <<< 13
def DMAC_STAT_MEIS : Nat := 1 <<< 14
def DMAC_STAT_BEIS : Nat := 1 <<< 15
def DMAC_STAT_VIF0M : Nat := 1 <<< 16
def DMAC_STAT_VIF1M : Nat := 1 <<< 17
def DMAC_STAT_GIFM : Nat := 1 <<< 18
def DMAC_STAT_FIPUM : Nat := 1 <<< 19
def DMAC_STAT_TIPUM : Nat := 1 <<< 20
def DMAC_STAT_SIF0M : Nat := 1 <<< 21
def DMAC_STAT_SIF1M : Nat := 1 <<< 22
def DMAC_STAT_SIF2M : Nat := 1 <<< 23
def DMAC_STAT_FSPRM : Nat := 1 <<< 24
def DMAC_STAT_TSPRM : Nat := 1 <<< 25
def DMAC_STAT_SIM : Nat := 1 <<< 29
def DMAC_STAT_MEIM : Nat := 1 <<< 30

/-- The interrupt status flag `DMAC_STAT_<c>S` of a channel. -/
def Channel.status : Channel → Nat
  | .VIF0 => DMAC_STAT_VIF0S | .VIF1 => DMAC_STAT_VIF1S | .GIF => DMAC_STAT_GIFS
  | .FIPU => DMAC_STAT_FIPUS | .TIPU => DMAC_STAT_TIPUS | .SIF0 => DMAC_STAT_SIF0S
  | .SIF1 => DMAC_STAT_SIF1S | .SIF2 => DMAC_STAT_SIF2S | .FSPR => DMAC_STAT_FSPRS
  | .TSPR => DMAC_STAT_TSPRS

/-- The interrupt mask flag `DMAC_STAT_<c>M` of a channel. -/
def Channel.mask : Channel → Nat
  | .VIF0 => DMAC_STAT_VIF0M | .VIF1 => DMAC_STAT_VIF1M | .GIF => DMAC_STAT_GIFM
  | .FIPU => DMAC_STAT_FIPUM | .TIPU => DMAC_STAT_TIPUM | .SIF0 => DMAC_STAT_SIF0M
  | .SIF1 => DMAC_STAT_SIF1M | .SIF2 => DMAC_STAT_SIF2M | .FSPR => DMAC_STAT_FSPRM
  | .TSPR => DMAC_STAT_TSPRM

/-- Every `DMAC_STAT_*S` status constant. -/
def stat_status_consts : List Nat :=
  [DMAC_STAT_VIF0S, DMAC_STAT_VIF1S, DMAC_STAT_GIFS, DMAC_STAT_FIPUS, DMAC_STAT_TIPUS,
   DMAC_STAT_SIF0S, DMAC_STAT_SIF1S, DMAC_STAT_SIF2S, DMAC_STAT_FSPRS, DMAC_STAT_TSPRS,
   DMAC_STAT_SIS, DMAC_STAT_MEIS, DMAC_STAT_BEIS]

/-- Every `DMAC_STAT_*M` mask constant. -/
def stat_mask_consts : List Nat :=
  [DMAC_STAT_VIF0M, DMAC_STAT_VIF1M, DMAC_STAT_GIFM, DMAC_STAT_FIPUM, DMAC_STAT_TIPUM,
   DMAC_STAT_SIF0M, DMAC_STAT_SIF1M, DMAC_STAT_SIF2M, DMAC_STAT_FSPRM, DMAC_STAT_TSPRM,
   DMAC_STAT_SIM, DMAC_STAT_MEIM]

/-- The interrupt sources that have a status flag in `DMAC_STAT`: the ten
channels, DMA stall (`SIS`), MFIFO empty (`MEIS`) and BUSERR (`BEIS`). -/
inductive StatIrq where
  | ch (c : Channel)
  | stall
  | mfifo_empty
  | buserr
  deriving DecidableEq, Repr, Fintype

/-- The status flag of an interrupt source. -/
def StatIrq.status : StatIrq → Nat
  | .ch c => c.status
  | .stall => DMAC_STAT_SIS
  | .mfifo_empty => DMAC_STAT_MEIS
  | .buserr => DMAC_STAT_BEIS

/-- The mask flag defined for an interrupt source: `DMAC_STAT_<c>M`,
`DMAC_STAT_SIM`, `DMAC_STAT_MEIM`; none is defined for BUSERR. -/
def StatIrq.mask : StatIrq → Option Nat
  | .ch c => some c.mask
  | .stall => some DMAC_STAT_SIM
  | .mfifo_empty => some DMAC_STAT_MEIM
  | .buserr => none

/-- Modelled from the spec: the effect on `DMAC_STAT` of a write, which is
done by the controller and not by code of the header (the header documents it
as "Status bit cleared by writing 1. Mask bits are reversed by writing 1.").
`r` is the value held, `w` the value written: in the lower 16 bits the bits
set in `w` are cleared, in the upper 16 bits the bits set in `w` are flipped. -/
def stat_write (r w : Nat) : Nat :=
  ((r % 2 ^ 16) ^^^ ((r % 2 ^ 16) &&& (w % 2 ^ 16))) |||
    ((((r >>> 16) % 2 ^ 16) ^^^ ((w >>> 16) % 2 ^ 16)) <<< 16)

/-- Modelled from the spec: `is_pending(bit)`, absent from the header, is the
status bit AND the mask bit 16 positions above it. -/
def is_pending (r bit : Nat) : Bool := r.testBit bit && r.testBit (bit + 16)

/-! ## Properties of `struct dma_tag` -/

theorem get_qwc (w : Nat) : dma_tag_get .qwc w = w % 65536 := by
  show extract w 0 16 = _
  simp [extract]

theorem get_pce (w : Nat) : dma_tag_get .pce w = (w / 67108864) % 4 := by
  show extract w 26 2 = _
  simp [extract]

theorem get_id (w : Nat) : dma_tag_get .id w = (w / 268435456) % 8 := by
  show extract w 28 3 = _
  simp [extract]

theorem get_irq (w : Nat) : dma_tag_get .irq w = (w / 2147483648) % 2 := by
  show extract w 31 1 = _
  simp [extract]

theorem get_addr (w : Nat) : dma_tag_get .addr w = (w / 4294967296) % 2147483648 := by
  show extract w 32 31 = _
  simp [extract]

theorem get_spr (w : Nat) : dma_tag_get .spr w = (w / 9223372036854775808) % 2 := by
  show extract w 63 1 = _
  simp [extract]

theorem set_qwc (v w : Nat) : dma_tag_set .qwc v w = w - w % 65536 + v % 65536 := by
  show deposit w v 0 16 = _
  simp [deposit, extract]

theorem set_pce (v w : Nat) :
    dma_tag_set .pce v w = w - (w / 67108864) % 4 * 67108864 + (v % 4) * 67108864 := by
  show deposit w v 26 2 = _
  simp [deposit, extract]

theorem set_id (v w : Nat) :
    dma_tag_set .id v w = w - (w / 268435456) % 8 * 268435456 + (v % 8) * 268435456 := by
  show deposit w v 28 3 = _
  simp [deposit, extract]

theorem set_irq (v w : Nat) :
    dma_tag_set .irq v w = w - (w / 2147483648) % 2 * 2147483648 + (v % 2) * 2147483648 := by
  show deposit w v 31 1 = _
  simp [deposit, extract]

theorem set_addr (v w : Nat) :
    dma_tag_set .addr v w =
      w - (w / 4294967296) % 2147483648 * 4294967296 + (v % 2147483648) * 4294967296 := by
  show deposit w v 32 31 = _
  simp [deposit, extract]

theorem set_spr (v w : Nat) :
    dma_tag_set .spr v w =
      w - (w / 9223372036854775808) % 2 * 9223372036854775808 +
        (v % 2) * 9223372036854775808 := by
  show deposit w v 63 1 = _
  simp [deposit, extract]

/-- The value of the word obtained by assigning all six members to zeroed
storage. -/
theorem encode_val (t : dma_tag) :
    t.encode = t.qwc % 65536 + (t.pce % 4) * 67108864 + (t.id % 8) * 268435456 +
      (t.irq % 2) * 2147483648 + (t.addr % 2147483648) * 4294967296 +
      (t.spr % 2) * 9223372036854775808 := by
  simp only [dma_tag.encode, dma_tag.store, set_qwc, set_pce, set_id, set_irq, set_addr, set_spr]
  omega

/-- Decoding and re-encoding loses exactly the padding bits of the first
word and everything above it. -/
theorem encode_decode_val (w : Nat) :
    (dma_tag.decode w).encode + dma_tag_pad w = w % 18446744073709551616 := by
  rw [encode_val]
  simp only [dma_tag.decode, get_qwc, get_pce, get_id, get_irq, get_addr, get_spr,
    dma_tag_pad, extract, Nat.reducePow]
  omega

/-- C1: under least-significant-bit-first allocation `struct dma_tag` places
`qwc` at bits 0-15, unnamed padding at bits 16-25, `pce` at 26-27, `id` at
28-30, `irq` at 31, `addr` at 32-62, `spr` at 63 and an unnamed field over the
whole second 64-bit word (bits 64-127); no field crosses a 64-bit storage
unit; the widths sum to exactly 128. -/
theorem dma_tag_layout_bits :
    dma_tag_layout =
      [ ⟨some .qwc, 0, 16⟩, ⟨none, 16, 10⟩, ⟨some .pce, 26, 2⟩, ⟨some .id, 28, 3⟩,
        ⟨some .irq, 31, 1⟩, ⟨some .addr, 32, 31⟩, ⟨some .spr, 63, 1⟩, ⟨none, 64, 64⟩ ] ∧
    (∀ s ∈ dma_tag_layout, s.lo / 64 = (s.lo + s.width - 1) / 64) ∧
    totalWidth dma_tag_decl = 128 := by
  decide

/-- C2 as stated fails: the word with padding bit 16 and bit 64 set decodes
to all-zero members; re-encoding them gives the zero word, whose first 64
bits differ from the original first 64 bits (assigning them back into the
original storage instead would keep the second 64 bits non-zero). -/
theorem dma_tag_roundtrip_counterexample :
    dma_tag.decode (2 ^ 64 + 2 ^ 16) = ⟨0, 0, 0, 0, 0, 0⟩ ∧
    word0 (dma_tag.decode (2 ^ 64 + 2 ^ 16)).encode = 0 ∧
    word0 (2 ^ 64 + 2 ^ 16) = 65536 ∧
    word1 ((dma_tag.decode (2 ^ 64 + 2 ^ 16)).store (2 ^ 64 + 2 ^ 16)) = 1 := by
  decide

/-- C2 amended: for every descriptor word, decoding into the six members and
re-encoding yields a word whose first 64 bits are the original first 64 bits
with the unnamed padding bits 16-25 cleared, and whose second 64 bits are
zero. -/
theorem dma_tag_encode_decode (w : Nat) :
    word0 (dma_tag.decode w).encode + dma_tag_pad w = word0 w ∧
    extract (dma_tag.decode w).encode 16 10 = 0 ∧
    word1 (dma_tag.decode w).encode = 0 := by
  have h := encode_decode_val w
  have hp : dma_tag_pad w = ((w / 65536) % 1024) * 65536 := by
    simp only [dma_tag_pad, extract, Nat.reducePow]
  generalize (dma_tag.decode w).encode = e at h ⊢
  generalize dma_tag_pad w = p at h hp ⊢
  simp only [word0, word1, extract, Nat.reducePow]
  omega

/-- C10: member values within their declared widths are read back exactly
after being assigned to the members of a `struct dma_tag`, whatever the
storage held before. -/
theorem dma_tag_decode_store (t : dma_tag) (w : Nat)
    (hqwc : t.qwc < 2 ^ 16) (hpce : t.pce < 4) (hid : t.id < 8) (hirq : t.irq < 2)
    (haddr : t.addr < 2 ^ 31) (hspr : t.spr < 2) :
    dma_tag.decode (t.store w) = t := by
  obtain ⟨q, p, i, r, a, s⟩ := t
  simp only [Nat.reducePow] at hqwc hpce hid hirq haddr hspr
  simp only [dma_tag.store, dma_tag.decode, get_qwc, get_pce, get_id,
    get_irq, get_addr, get_spr, set_qwc, set_pce, set_id, set_irq, set_addr, set_spr,
    dma_tag.mk.injEq]
  refine ⟨?_, ?_, ?_, ?_, ?_, ?_⟩ <;> omega

/-- C10 at the largest member values, stored over all-ones storage. -/
theorem dma_tag_decode_store_witness :
    dma_tag.decode (dma_tag.store ⟨65535, 3, 7, 1, 2147483647, 1⟩ (2 ^ 128 - 1)) =
      ⟨65535, 3, 7, 1, 2147483647, 1⟩ :=
  dma_tag_decode_store ⟨65535, 3, 7, 1, 2147483647, 1⟩ (2 ^ 128 - 1)
    (by decide) (by decide) (by decide) (by decide) (by decide) (by decide)

/-! ## Properties of `enum dma_tag_reg` -/

/-- C3 as stated fails: ReferenceEnd (`dma_tag_id_refe`) and ContinueStall
(`dma_tag_id_cnts`) are two kinds with the same identifier value 0, so the
nine identifiers are not pairwise distinct and no map from identifiers back
to kinds can return both. -/
theorem dma_tag_reg_val_collision :
    dma_tag_reg.dma_tag_id_refe ≠ dma_tag_reg.dma_tag_id_cnts ∧
    dma_tag_reg.dma_tag_id_refe.val = 0 ∧ dma_tag_reg.dma_tag_id_cnts.val = 0 := by
  decide

/-- C3 amended: the nine tag kinds have, in declaration order, the identifier
values 0, 0, 1, 2, 3, 4, 5, 6, 7; each fits the 3-bit `id` member; the eight
kinds other than ContinueStall have pairwise distinct identifiers, and there
is a map from identifiers back to kinds that undoes the kind-to-identifier
map on those eight kinds (ContinueStall, sharing 0, comes back as
ReferenceEnd). -/
theorem dma_tag_reg_val_table :
    (enumValues 0 dma_tag_reg_decl).map Prod.snd = [0, 0, 1, 2, 3, 4, 5, 6, 7] ∧
    (∀ k : dma_tag_reg, k.val < 2 ^ fieldWidth .id dma_tag_layout) ∧
    ([dma_tag_reg.dma_tag_id_refe, .dma_tag_id_cnt, .dma_tag_id_next, .dma_tag_id_ref,
      .dma_tag_id_refs, .dma_tag_id_call, .dma_tag_id_ret, .dma_tag_id_end].map
        dma_tag_reg.val).Nodup ∧
    ∃ f : Nat → dma_tag_reg, ∀ k : dma_tag_reg,
      f k.val = if k = .dma_tag_id_cnts then .dma_tag_id_refe else k := by
  refine ⟨by decide, by decide, by decide, ?_⟩
  refine ⟨fun n => match n with
    | 0 => .dma_tag_id_refe
    | 1 => .dma_tag_id_cnt
    | 2 => .dma_tag_id_next
    | 3 => .dma_tag_id_ref
    | 4 => .dma_tag_id_refs
    | 5 => .dma_tag_id_call
    | 6 => .dma_tag_id_ret
    | _ => .dma_tag_id_end, ?_⟩
  intro k
  cases k <;> rfl

/-- C7 as stated fails: the table gives ContinueStall (`dma_tag_id_cnts`) the
pair (tag ADDR field, none), not (next to tag, next to transfer data). -/
theorem dma_tag_reg_route_cnts :
    dma_tag_reg.dma_tag_id_cnts.route = (DataStart.ADDR, NextTag.none) ∧
    (DataStart.ADDR, NextTag.none) ≠ (DataStart.next_to_tag, NextTag.next_to_transfer_data) := by
  decide

/-- C7 amended: the table gives ReferenceEnd and ContinueStall (which share
identifier 0) the pair (tag ADDR field, none); Continue (next to tag, next to
transfer data); Next (next to tag, tag ADDR field); Reference (tag ADDR field,
next to tag); Call (next to tag, tag ADDR field); Return (next to tag, address
stack register); End (next to tag, none); and ReferenceStall takes its data
start address from the tag ADDR field. Kinds with equal identifiers have
equal rows. -/
theorem dma_tag_reg_route_table :
    dma_tag_reg.dma_tag_id_refe.route = (.ADDR, .none) ∧
    dma_tag_reg.dma_tag_id_cnts.route = (.ADDR, .none) ∧
    dma_tag_reg.dma_tag_id_cnt.route = (.next_to_tag, .next_to_transfer_data) ∧
    dma_tag_reg.dma_tag_id_next.route = (.next_to_tag, .ADDR) ∧
    dma_tag_reg.dma_tag_id_ref.route = (.ADDR, .next_to_tag) ∧
    dma_tag_reg.dma_tag_id_call.route = (.next_to_tag, .ADDR) ∧
    dma_tag_reg.dma_tag_id_ret.route = (.next_to_tag, .Dn_ASR) ∧
    dma_tag_reg.dma_tag_id_end.route = (.next_to_tag, .none) ∧
    dma_tag_reg.dma_tag_id_refs.route.1 = .ADDR ∧
    (∀ a b : dma_tag_reg, a.val = b.val → a.route = b.route) := by
  decide

/-! ## Properties of the register map -/

/-- C6 as stated fails: channel 3 (from IPU) has no tag address register and
no address stack registers in the register map. -/
theorem regAddr_FIPU_missing :
    Channel.FIPU.num = 3 ∧ regAddr .FIPU .TADR = none ∧
    regAddr .FIPU .ASR0 = none ∧ regAddr .FIPU .ASR1 = none := by
  decide

/-- C6 amended: each of the ten channels has channel control (CHCR), memory
address (MADR) and quadword count (QWC) registers defined; the tag address
register (TADR) is defined exactly for channels 0, 1, 2, 4, 6 and 9, and the
two address-stack slots (ASR0, ASR1) exactly for channels 0, 1 and 2. -/
theorem regAddr_defined :
    channels.map Channel.num = List.range 10 ∧
    ∀ c : Channel,
      (regAddr c .CHCR).isSome = true ∧
      (regAddr c .MADR).isSome = true ∧
      (regAddr c .QWC).isSome = true ∧
      (regAddr c .TADR).isSome = decide (c.num ∈ [0, 1, 2, 4, 6, 9]) ∧
      (regAddr c .ASR0).isSome = decide (c.num ∈ [0, 1, 2]) ∧
      (regAddr c .ASR1).isSome = decide (c.num ∈ [0, 1, 2]) := by
  decide

/-! ## Properties of the status register constants -/

/-- C4: the channels are numbered 0..9; the interrupt status flag of channel
`n` is exactly the single bit `n` and its interrupt mask flag exactly the
single bit `n + 16`; every `DMAC_STAT_*S` constant lies within the low 16
bits and every `DMAC_STAT_*M` constant within the upper 16 bits of the
32-bit register. -/
theorem stat_channel_bits :
    channels.map Channel.num = List.range 10 ∧
    (∀ c : Channel, c.status = 2 ^ c.num ∧ c.mask = 2 ^ (c.num + 16)) ∧
    (∀ s ∈ stat_status_consts, s < 2 ^ 16) ∧
    (∀ m ∈ stat_mask_consts, m < 2 ^ 32 ∧ m % 2 ^ 16 = 0) := by
  decide

/-- C5 as stated fails: the bus-error status flag `DMAC_STAT_BEIS` (bit 15)
has no mask flag defined. -/
theorem stat_buserr_mask_undefined :
    StatIrq.buserr.status = 2 ^ 15 ∧ StatIrq.buserr.mask = none := by
  decide

/-- C5 amended: every status flag other than bus-error (the ten per-channel
flags, stall-interrupt and MFIFO-empty) has a mask flag defined, equal to the
status flag shifted left by 16 bits; bus-error has no mask flag. -/
theorem stat_mask_of_status (f : StatIrq) :
    f.mask = if f = .buserr then none else some (f.status <<< 16) := by
  revert f
  decide

/-! ## Properties of writes to the status register -/

theorem testBit_high (x i : Nat) (hx : x < 2 ^ 32) (hi : 32 ≤ i) : x.testBit i = false :=
  Nat.testBit_lt_two_pow (Nat.lt_of_lt_of_le hx (Nat.pow_le_pow_right (by decide) hi))

/-- Bit `i` of the register after a write: cleared-by-one below bit 16,
flipped-by-one from bit 16 up. -/
theorem stat_write_testBit (r w i : Nat) (hr : r < 2 ^ 32) (hw : w < 2 ^ 32) :
    (stat_write r w).testBit i =
      (if i < 16 then r.testBit i && !w.testBit i else xor (r.testBit i) (w.testBit i)) := by
  rcases Nat.lt_or_ge i 16 with h | h
  · simp only [stat_write, Nat.testBit_or, Nat.testBit_xor, Nat.testBit_and,
      Nat.testBit_mod_two_pow, Nat.testBit_shiftLeft, h, if_true]
    have h2 : ¬ (i ≥ 16) := by omega
    simp only [h2, decide_False, decide_True, Bool.true_and, Bool.false_and, Bool.or_false]
    cases r.testBit i <;> cases w.testBit i <;> rfl
  · obtain ⟨j, rfl⟩ := Nat.exists_eq_add_of_le h
    have h2 : ¬ (16 + j < 16) := by omega
    simp only [stat_write, Nat.testBit_or, Nat.testBit_xor, Nat.testBit_and,
      Nat.testBit_mod_two_pow, Nat.testBit_shiftLeft, Nat.testBit_shiftRight, h2, if_false,
      decide_False, Bool.false_and, Bool.false_or, Nat.add_sub_cancel_left, h, decide_True,
      Bool.true_and, Bool.xor_false, ge_iff_le]
    by_cases hj : j < 16
    · simp [hj]
    · have e1 := testBit_high r (16 + j) hr (by omega)
      have e2 := testBit_high w (16 + j) hw (by omega)
      simp [hj, e1, e2]

/-- C8: for 32-bit `r` held in `DMAC_STAT` and 32-bit `w` written, bit `i` of
the result is `r`'s bit cleared where `w` has a 1 when `i` is a status bit
(below 16) and `r`'s bit flipped where `w` has a 1 when `i` is a mask bit; a
bit where `w` has a 0 is unchanged; the result is again a 32-bit value; and a
status bit is pending exactly when it and the mask bit 16 positions above it
are both set. -/
theorem stat_write_spec (r w i : Nat) (hr : r < 2 ^ 32) (hw : w < 2 ^ 32) :
    (stat_write r w).testBit i =
      (if i < 16 then r.testBit i && !w.testBit i else xor (r.testBit i) (w.testBit i)) ∧
    (w.testBit i = false → (stat_write r w).testBit i = r.testBit i) ∧
    stat_write r w < 2 ^ 32 ∧
    (is_pending r i = true ↔ r.testBit i = true ∧ r.testBit (i + 16) = true) := by
  refine ⟨stat_write_testBit r w i hr hw, ?_, ?_, ?_⟩
  · intro h0
    rw [stat_write_testBit r w i hr hw, h0]
    by_cases h : i < 16 <;> simp [h]
  · apply Nat.lt_pow_two_of_testBit
    intro k hk
    have h : ¬ (k < 16) := by omega
    rw [stat_write_testBit r w k hr hw, testBit_high r k hr hk, testBit_high w k hw hk]
    simp [h]
  · simp [is_pending]

/-- C8 at `r = 0x30003`, `w = 0x10001`, bit 1. -/
theorem stat_write_spec_witness :
    (stat_write 0x30003 0x10001).testBit 1 =
      (if 1 < 16 then (0x30003).testBit 1 && !(0x10001).testBit 1
        else xor ((0x30003).testBit 1) ((0x10001).testBit 1)) ∧
    ((0x10001).testBit 1 = false → (stat_write 0x30003 0x10001).testBit 1 = (0x30003).testBit 1) ∧
    stat_write 0x30003 0x10001 < 2 ^ 32 ∧
    (is_pending 0x30003 1 = true ↔ (0x30003).testBit 1 = true ∧ (0x30003).testBit (1 + 16) = true) :=
  stat_write_spec 0x30003 0x10001 1 (by decide) (by decide)

/-! ## Properties of the channel control constants -/

/-- C9: the six CHCR fields occupy the pairwise disjoint bit ranges 0, 2-3,
4-5, 6, 7 and 8; for every choice of one `DIR`, `MOD`, `ASP`, `TTE`, `TIE`
and `STR` value, masking the bitwise OR of the six with each range returns
the chosen value of that field; the six presets decode to their
constituents. -/
theorem chcr_fields_of_or :
    chcr_ranges = [0x1, 0xc, 0x30, 0x40, 0x80, 0x100] ∧
    chcr_ranges.Pairwise (fun a b => a &&& b = 0) ∧
    (∀ d ∈ chcr_dir, ∀ m ∈ chcr_mod, ∀ a ∈ chcr_asp, ∀ t ∈ chcr_tte, ∀ i ∈ chcr_tie,
      ∀ s ∈ chcr_str, chcr_fields (d ||| m ||| a ||| t ||| i ||| s) = (d, m, a, t, i, s)) ∧
    chcr_fields DMAC_CHCR_SENDN =
      (DMAC_CHCR_DIR_FROMMEM, DMAC_CHCR_MOD_NORMAL, DMAC_CHCR_ASP_NONE,
        DMAC_CHCR_TTE_OFF, DMAC_CHCR_TIE_OFF, DMAC_CHCR_STR_START) ∧
    chcr_fields DMAC_CHCR_SENDN_TIE =
      (DMAC_CHCR_DIR_FROMMEM, DMAC_CHCR_MOD_NORMAL, DMAC_CHCR_ASP_NONE,
        DMAC_CHCR_TTE_OFF, DMAC_CHCR_TIE_ON, DMAC_CHCR_STR_START) ∧
    chcr_fields DMAC_CHCR_SENDC =
      (DMAC_CHCR_DIR_FROMMEM, DMAC_CHCR_MOD_CHAIN, DMAC_CHCR_ASP_NONE,
        DMAC_CHCR_TTE_OFF, DMAC_CHCR_TIE_OFF, DMAC_CHCR_STR_START) ∧
    chcr_fields DMAC_CHCR_SENDC_TTE =
      (DMAC_CHCR_DIR_FROMMEM, DMAC_CHCR_MOD_CHAIN, DMAC_CHCR_ASP_NONE,
        DMAC_CHCR_TTE_ON, DMAC_CHCR_TIE_OFF, DMAC_CHCR_STR_START) ∧
    chcr_fields DMAC_CHCR_RECVN =
      (DMAC_CHCR_DIR_TOMEM, DMAC_CHCR_MOD_NORMAL, DMAC_CHCR_ASP_NONE,
        DMAC_CHCR_TTE_OFF, DMAC_CHCR_TIE_OFF, DMAC_CHCR_STR_START) ∧
    chcr_fields DMAC_CHCR_RECVC_TIE =
      (DMAC_CHCR_DIR_TOMEM, DMAC_CHCR_MOD_CHAIN, DMAC_CHCR_ASP_NONE,
        DMAC_CHCR_TTE_OFF, DMAC_CHCR_TIE_ON, DMAC_CHCR_STR_START) := by
  refine ⟨by decide, by decide, by decide, by decide, by decide, by decide, by decide,
    by decide, by decide⟩

end PS2.DMAC
